import Mathlib

/-!
A shallow embedding of the FinSight backend (src/Backend/app.py): a Flask
CRUD API over three tables (User, Account, Transaction) with JWT bearer
authentication.  Request handlers are modelled as pure functions from a
database state and a request to a response and a new state.  JSON string
fields are modelled as `String`; request-body values whose truthiness the
code tests are modelled by a small `Json` fragment (null, booleans,
numbers, strings); numbers are modelled as `Rat`.  JWT signing is
modelled abstractly: a signed token is a record of its claims plus the
key it was signed with, and signature verification is key equality.
-/

namespace FinSight

/-- The fragment of JSON values the handlers inspect.  Containers
(arrays, objects) never appear as the scalar fields the handlers read
and are outside the modelled fragment. -/
inductive Json where
  | null
  | bool (b : Bool)
  | num (q : Rat)
  | str (s : String)
deriving DecidableEq, Repr

/-- Python truthiness of a JSON value: None, False, 0 and "" are falsy. -/
def Json.truthy : Json → Bool
  | .null => false
  | .bool b => b
  | .num q => q != 0
  | .str s => s != ""

/-- Truthiness of `data.get(key)`: a missing key yields None, which is falsy. -/
def truthyJ : Option Json → Bool
  | none => false
  | some j => j.truthy

/-- Truthiness for string-typed body fields. -/
def truthyS : Option String → Bool
  | none => false
  | some s => s != ""

/-- Numeric value of a run of decimal digit characters, accumulator
style. -/
def digitsVal : Nat → List Char → Nat
  | acc, [] => acc
  | acc, c :: cs => digitsVal (acc * 10 + (c.toNat - '0'.toNat)) cs

/-- Python `float()` on string literals, for the modelled fragment: an
optional sign, then decimal digits with an optional decimal point
("0", "12", "3.5", "-.5", "1.").  Exponent forms, "inf"/"nan",
underscore separators and surrounding whitespace are outside the
modelled fragment; values are exact rationals (IEEE rounding is not
modelled).  `none` = the conversion raises (a raw 500, spec
section 9). -/
def parseFloat? (s : String) : Option Rat :=
  let signed : Int × List Char :=
    match s.data with
    | '-' :: cs => (-1, cs)
    | '+' :: cs => (1, cs)
    | cs => (1, cs)
  match signed.2.splitOn '.' with
  | [ip] =>
    if !ip.isEmpty && ip.all Char.isDigit then
      some ((signed.1 * (digitsVal 0 ip : Int) : Int) : Rat)
    else none
  | [ip, fp] =>
    if (!ip.isEmpty || !fp.isEmpty) && ip.all Char.isDigit && fp.all Char.isDigit then
      some (mkRat
        (signed.1 * ((digitsVal 0 ip * 10 ^ fp.length + digitsVal 0 fp : Nat) : Int))
        (10 ^ fp.length))
    else none
  | _ => none

/-- `float(x)` on the modelled JSON fragment: numbers convert to
themselves, booleans to 0 or 1, and strings are parsed by
`parseFloat?` (Python parses numeric strings, so `float("0") = 0.0`);
`None` cannot be converted. -/
def pyFloat : Json → Option Rat
  | .num q => some q
  | .bool b => some (if b then 1 else 0)
  | .str s => parseFloat? s
  | .null => none

/-- User row (app.py lines 38-52). -/
structure User where
  id : String
  name : String
  email : String
  password_hash : String
  sync_token : String
deriving DecidableEq, Repr

/-- Account row (app.py lines 54-61). -/
structure Account where
  id : String
  user_id : String
  name : String
  icon : String
deriving DecidableEq, Repr

/-- Transaction row (app.py lines 63-84).  `amount` is a `db.Float`
column, modelled as `Rat`. -/
structure Transaction where
  id : String
  user_id : String
  account_id : String
  amount : Rat
  description : String
  category : String
  date : String
  type : String
  method : String
deriving DecidableEq, Repr

/-- `User.to_dict` (lines 46-52): public representation, no password hash. -/
structure UserDict where
  id : String
  name : String
  email : String
  syncToken : String
deriving DecidableEq, Repr

def User.to_dict (u : User) : UserDict :=
  ⟨u.id, u.name, u.email, u.sync_token⟩

/-- `Account.to_dict` (line 60-61). -/
structure AccountDict where
  id : String
  name : String
  icon : String
deriving DecidableEq, Repr

def Account.to_dict (a : Account) : AccountDict :=
  ⟨a.id, a.name, a.icon⟩

/-- `Transaction.to_dict` (lines 74-84): the full representation of a
transaction. -/
structure TxDict where
  id : String
  accountId : String
  amount : Rat
  description : String
  category : String
  date : String
  type : String
  method : String
deriving DecidableEq, Repr

def Transaction.to_dict (t : Transaction) : TxDict :=
  ⟨t.id, t.account_id, t.amount, t.description, t.category, t.date, t.type, t.method⟩

/-- The whole persistent store: the three tables. -/
structure DB where
  users : List User
  accounts : List Account
  transactions : List Transaction
deriving DecidableEq, Repr

/-- A signed JWT, modelled abstractly by its claims (`sub`, `iat`, `exp`
as Unix timestamps) plus the key it was signed with.  Signature
verification against a secret is modelled as equality with `key`. -/
structure JwtToken where
  sub : String
  iat : Int
  exp : Int
  key : String
deriving DecidableEq, Repr

/-- One space-separated chunk of an Authorization header: either (the
serialization of) a signed token, or any other piece of text. -/
inductive TokenWire where
  | tok (t : JwtToken)
  | text (s : String)
deriving DecidableEq, Repr

/-- The failure modes of `jwt.decode` that the modelled tokens can hit. -/
inductive JwtError where
  | invalidSignature
  | expiredSignature
  | decodeError
deriving DecidableEq, Repr

/-- `generate_token` (lines 88-94): payload with `exp = now + 7 days`,
`iat = now`, `sub = user_id`, signed with the configured secret. -/
def generate_token (user_id : String) (secret : String) (now : Int) : JwtToken :=
  { sub := user_id, iat := now, exp := now + 7 * 86400, key := secret }

/-- `jwt.decode(chunk, secret, algorithms=['HS256'])`: a non-token chunk
fails to decode; a token signed with a different key fails signature
verification (checked before claims); a token whose `exp` claim is in
the past raises an expired-signature error.  On success the payload's
`sub` is returned. -/
def jwt_decode (w : TokenWire) (secret : String) (now : Int) : Except JwtError String :=
  match w with
  | .text _ => .error .decodeError
  | .tok t =>
    if t.key != secret then .error .invalidSignature
    else if t.exp < now then .error .expiredSignature
    else .ok t.sub

/-- Response bodies the handlers produce.  Each constructor stands for an
exact JSON shape: `err m` is the object with the single key "error",
`ok_true` is the object with the single key "success" holding true,
`created i` is the object with the single key "id" (line 205), and
`txOne` would be the full eight-key `Transaction.to_dict` object.
Distinct constructors denote JSON objects with distinct key sets, hence
unequal JSON values. -/
inductive Body where
  | err (msg : String)
  | ok_true
  | created (id : String)
  | userToken (user : UserDict) (tok : JwtToken)
  | accountList (l : List AccountDict)
  | accountOne (a : AccountDict)
  | txList (l : List TxDict)
  | txOne (t : TxDict)
deriving DecidableEq, Repr

structure Response where
  status : Nat
  body : Body
deriving DecidableEq, Repr

/-- Extract the account dicts of an account-list response. -/
def Response.accountDicts : Response → List AccountDict
  | ⟨_, .accountList l⟩ => l
  | _ => []

/-- Extract the transaction dicts of a transaction-list response. -/
def Response.txDicts : Response → List TxDict
  | ⟨_, .txList l⟩ => l
  | _ => []

/-- `werkzeug.security.generate_password_hash`, modelled as an injective
tagging of the password: the model of an ideal salted hash is that
verification succeeds exactly for the hashed password. -/
def generate_password_hash (p : String) : String :=
  "pbkdf2-sha256$" ++ p

/-- `werkzeug.security.check_password_hash`. -/
def check_password_hash (h : String) (p : String) : Bool :=
  h == generate_password_hash p

/-- Outcome of the auth gate: either a 401 response, or the resolved user
passed to the wrapped handler. -/
inductive AuthResult where
  | failure (r : Response)
  | success (u : User)
deriving DecidableEq, Repr

/-- `token_required` (lines 96-111).  The Authorization header is `none`
when absent; when present it is given as the list of its
space-separated chunks (`token.split(" ")`), so the raw empty string is
`[.text ""]` — the only falsy present header.  The code indexes chunk 1
without checking the scheme word; a missing index raises IndexError,
and any `jwt.decode` failure raises, both caught by the bare `except`
returning the generic 401. -/
def token_required (s : DB) (secret : String) (now : Int)
    (header : Option (List TokenWire)) : AuthResult :=
  match header with
  | none => .failure ⟨401, .err "Token is missing!"⟩
  | some parts =>
    if parts == [.text ""] then .failure ⟨401, .err "Token is missing!"⟩
    else
      match parts.get? 1 with
      | none => .failure ⟨401, .err "Token is invalid!"⟩
      | some w =>
        match jwt_decode w secret now with
        | .error _ => .failure ⟨401, .err "Token is invalid!"⟩
        | .ok sub =>
          match (s.users.filter (fun u => u.id == sub)).head? with
          | none => .failure ⟨401, .err "Invalid token!"⟩
          | some u => .success u

/-- Request body of POST /api/register; each field is `data.get(key)`. -/
structure RegisterBody where
  name : Option String
  email : Option String
  password : Option String
deriving DecidableEq, Repr

/-- Request body of POST /api/login. -/
structure LoginBody where
  email : Option String
  password : Option String
deriving DecidableEq, Repr

/-- Request body of POST /api/transactions.  `amount` keeps its JSON
value because the handler tests its truthiness before converting. -/
structure TxBody where
  accountId : Option String
  amount : Option Json
  description : Option String
  category : Option String
  date : Option String
  type : Option String
  method : Option String
deriving DecidableEq, Repr

/-- `register` (lines 115-142).  `body = none` models a missing/null JSON
body.  Freshly generated identifiers — the new user's uuid, the sync
token's hex part and the default account's uuid — are passed in as
`uid`, `sync_hex`, `aid`.  On success the new User row and its default
"Cash Wallet" Account row are added in one commit. -/
def register (s : DB) (body : Option RegisterBody)
    (uid sync_hex aid : String) (secret : String) (now : Int) : Response × DB :=
  match body with
  | none => (⟨400, .err "Missing required fields"⟩, s)
  | some d =>
    if !truthyS d.email || !truthyS d.password then
      (⟨400, .err "Missing required fields"⟩, s)
    else if ((s.users.filter (fun u => u.email == d.email.getD "")).head?).isSome then
      (⟨409, .err "User with this email already exists"⟩, s)
    else
      let hashed := generate_password_hash (d.password.getD "")
      let new_token := "SF-" ++ sync_hex
      let new_user : User :=
        { id := uid, name := d.name.getD "New User", email := d.email.getD "",
          password_hash := hashed, sync_token := new_token }
      let s' : DB :=
        { s with
          users := s.users ++ [new_user],
          accounts := s.accounts ++ [{ id := aid, user_id := uid,
                                       name := "Cash Wallet", icon := "💰" }] }
      (⟨201, .userToken new_user.to_dict (generate_token uid secret now)⟩, s')

/-- `login` (lines 144-155).  Reads the store but never modifies it. -/
def login (s : DB) (body : Option LoginBody) (secret : String) (now : Int) : Response :=
  match body with
  | none => ⟨400, .err "Missing email or password"⟩
  | some d =>
    if !truthyS d.email || !truthyS d.password then
      ⟨400, .err "Missing email or password"⟩
    else
      match (s.users.filter (fun u => u.email == d.email.getD "")).head? with
      | some u =>
        if check_password_hash u.password_hash (d.password.getD "") then
          ⟨200, .userToken u.to_dict (generate_token u.id secret now)⟩
        else ⟨401, .err "Invalid credentials"⟩
      | none => ⟨401, .err "Invalid credentials"⟩

/-- `get_accounts` (lines 157-161): the authenticated user's accounts. -/
def get_accounts (s : DB) (u : User) : Response :=
  ⟨200, .accountList ((s.accounts.filter (fun a => a.user_id == u.id)).map Account.to_dict)⟩

/-- Byte-lexicographic ≤ on strings as lists of characters (UTF-8 byte
order coincides with code-point order, which this compares).  This is
the TEXT collation SQLite applies to `ORDER BY date`. -/
def strLeb : List Char → List Char → Bool
  | [], _ => true
  | _ :: _, [] => false
  | a :: as, b :: bs => if a = b then strLeb as bs else decide (a < b)

/-- Lexicographic ≤ on date strings. -/
def dateLe (a b : String) : Bool :=
  strLeb a.data b.data

/-- Insert into a list keeping it sorted w.r.t. `le`. -/
def insertSorted (le : α → α → Bool) (x : α) : List α → List α
  | [] => [x]
  | y :: ys => if le x y then x :: y :: ys else y :: insertSorted le x ys

/-- Insertion sort; models SQL `ORDER BY` (some permutation of the rows
that is sorted by the requested key). -/
def sortBy (le : α → α → Bool) : List α → List α
  | [] => []
  | x :: xs => insertSorted le x (sortBy le xs)

/-- Transaction order used by `get_transactions`: date descending. -/
def dateDesc (t u : Transaction) : Bool :=
  dateLe u.date t.date

/-- The rows `get_transactions` renders: the user's transactions ordered
by date descending (`order_by(Transaction.date.desc())`, line 182). -/
def user_transactions_sorted (s : DB) (u : User) : List Transaction :=
  sortBy dateDesc (s.transactions.filter (fun t => t.user_id == u.id))

/-- `get_transactions` (lines 179-183). -/
def get_transactions (s : DB) (u : User) : Response :=
  ⟨200, .txList ((user_transactions_sorted s u).map Transaction.to_dict)⟩

/-- `add_transaction` (lines 185-205).  `today` is
`datetime.utcnow().strftime('%Y-%m-%d')`, `tid` the fresh uuid.  The
result is `none` when `float()` is applied outside the modelled
fragment (an unhandled exception, a raw 500).  Note the success body is
only the new row's id (line 205). -/
def add_transaction (s : DB) (u : User) (data : TxBody)
    (today : String) (tid : String) : Option (Response × DB) :=
  if !truthyS data.accountId || !truthyJ data.amount then
    some (⟨400, .err "Missing transaction data"⟩, s)
  else
    match pyFloat (data.amount.getD .null) with
    | none => none
    | some q =>
      let new_tx : Transaction :=
        { id := tid, user_id := u.id, account_id := data.accountId.getD "",
          amount := q,
          description := data.description.getD "No description",
          category := data.category.getD "Other",
          date := data.date.getD today,
          type := data.type.getD "expense",
          method := data.method.getD "cash" }
      some (⟨201, .created tid⟩, { s with transactions := s.transactions ++ [new_tx] })

/-- `delete_transaction` (lines 207-216).  `idArg` is
`request.args.get('id')`; `filter_by(id=None)` matches no row.  The
found row object itself is deleted from the session. -/
def delete_transaction (s : DB) (u : User) (idArg : Option String) : Response × DB :=
  match (s.transactions.filter (fun t => idArg == some t.id && t.user_id == u.id)).head? with
  | none => (⟨404, .err "Transaction not found"⟩, s)
  | some tx => (⟨200, .ok_true⟩, { s with transactions := s.transactions.erase tx })

/-- Modelled from the spec: the DELETE /api/accounts route is absent from
src/Backend/app.py (the spec's §6 table and §4.5 list it; the spec
notes the repository holds two near-duplicate application files and
only one is under src/).  Per §4.5: requires the account id belong to
the authenticated user, else NotFound 404; on success deletes all
transactions referencing that account for that user, then the account
itself, as one atomic unit, answering 200 with a success body. -/
def delete_account (s : DB) (u : User) (idArg : Option String) : Response × DB :=
  match (s.accounts.filter (fun a => idArg == some a.id && a.user_id == u.id)).head? with
  | none => (⟨404, .err "Account not found"⟩, s)
  | some acc =>
    (⟨200, .ok_true⟩,
     { s with
       accounts := s.accounts.filter (fun a => !(a.id == acc.id && a.user_id == u.id)),
       transactions := s.transactions.filter (fun t => !(t.account_id == acc.id && t.user_id == u.id)) })

/-! ### Order facts for the date comparison and the sort model -/

theorem strLeb_total (xs ys : List Char) : strLeb xs ys = true ∨ strLeb ys xs = true := by
  induction xs generalizing ys with
  | nil => left; rfl
  | cons a as ih =>
    cases ys with
    | nil => right; rfl
    | cons b bs =>
      by_cases hab : a = b
      · subst hab
        simpa [strLeb] using ih bs
      · rcases lt_or_gt_of_ne hab with h | h
        · left; simp [strLeb, hab, h]
        · right; simp [strLeb, Ne.symm hab, h]

theorem strLeb_trans : ∀ {xs ys zs : List Char},
    strLeb xs ys = true → strLeb ys zs = true → strLeb xs zs = true
  | [], _, _, _, _ => rfl
  | _ :: _, [], _, h, _ => by simp [strLeb] at h
  | _ :: _, _ :: _, [], _, h => by simp [strLeb] at h
  | a :: as, b :: bs, c :: cs, h₁, h₂ => by
    by_cases hab : a = b
    · subst hab
      by_cases hac : a = c
      · subst hac
        simp [strLeb] at h₁ h₂ ⊢
        exact strLeb_trans h₁ h₂
      · simp [strLeb, hac] at h₂ ⊢
        simpa [strLeb, hac] using h₂
    · have hlt : a < b := by
        have := h₁
        simp [strLeb, hab] at this
        exact this
      by_cases hbc : b = c
      · subst hbc
        simp [strLeb, hab, hlt]
      · have hlt' : b < c := by
          have := h₂
          simp [strLeb, hbc] at this
          exact this
        have : a < c := lt_trans hlt hlt'
        simp [strLeb, ne_of_lt this, this]

theorem dateDesc_total (t u : Transaction) : dateDesc t u = true ∨ dateDesc u t = true := by
  simpa [dateDesc, dateLe] using strLeb_total u.date.data t.date.data

theorem dateDesc_trans {t u v : Transaction} :
    dateDesc t u = true → dateDesc u v = true → dateDesc t v = true := by
  intro h₁ h₂
  exact strLeb_trans h₂ h₁

theorem insertSorted_perm (le : α → α → Bool) (x : α) (l : List α) :
    List.Perm (insertSorted le x l) (x :: l) := by
  induction l with
  | nil => rfl
  | cons y ys ih =>
    by_cases h : le x y
    · simp [insertSorted, h]
    · simp only [insertSorted, h, Bool.false_eq_true, if_false]
      exact (ih.cons y).trans (List.Perm.swap x y ys)

theorem sortBy_perm (le : α → α → Bool) (l : List α) : List.Perm (sortBy le l) l := by
  induction l with
  | nil => rfl
  | cons x xs ih =>
    exact (insertSorted_perm le x (sortBy le xs)).trans (ih.cons x)

theorem insertSorted_pairwise (le : α → α → Bool)
    (htrans : ∀ a b c, le a b = true → le b c = true → le a c = true)
    (htot : ∀ a b, le a b = true ∨ le b a = true)
    (x : α) {l : List α} (h : l.Pairwise (fun a b => le a b = true)) :
    (insertSorted le x l).Pairwise (fun a b => le a b = true) := by
  induction l with
  | nil => simp [insertSorted]
  | cons y ys ih =>
    rcases List.pairwise_cons.mp h with ⟨hy, hys⟩
    by_cases hxy : le x y
    · simp only [insertSorted, hxy, if_true]
      refine List.pairwise_cons.mpr ⟨?_, h⟩
      intro z hz
      rcases List.mem_cons.mp hz with rfl | hz'
      · exact hxy
      · exact htrans x y z hxy (hy z hz')
    · simp only [insertSorted, hxy, Bool.false_eq_true, if_false]
      refine List.pairwise_cons.mpr ⟨?_, ih hys⟩
      intro z hz
      have hz' : z = x ∨ z ∈ ys :=
        List.mem_cons.mp ((insertSorted_perm le x ys).mem_iff.mp hz)
      rcases hz' with rfl | hz'
      · rcases htot z y with h' | h'
        · exact absurd h' hxy
        · exact h'
      · exact hy z hz'

theorem sortBy_pairwise (le : α → α → Bool)
    (htrans : ∀ a b c, le a b = true → le b c = true → le a c = true)
    (htot : ∀ a b, le a b = true ∨ le b a = true)
    (l : List α) : (sortBy le l).Pairwise (fun a b => le a b = true) := by
  induction l with
  | nil => simp [sortBy]
  | cons x xs ih => exact insertSorted_pairwise le htrans htot x ih

/-! ### Concrete fixtures used by counterexamples and witnesses -/

/-- A registered demo user. -/
def demoUser : User :=
  { id := "u1", name := "Demo", email := "demo@x.com",
    password_hash := generate_password_hash "pw", sync_token := "SF-AAAAAA" }

/-- A second user, owner of nothing the demo user may see. -/
def otherUser : User :=
  { id := "u2", name := "Other", email := "other@x.com",
    password_hash := generate_password_hash "pw2", sync_token := "SF-BBBBBB" }

/-- A store holding the demo user and their default account. -/
def demoDB0 : DB :=
  { users := [demoUser],
    accounts := [{ id := "a1", user_id := "u1", name := "Cash Wallet", icon := "💰" }],
    transactions := [] }

/-- Run one create-transaction request for the demo user and keep the new
state (the state is unchanged when the request does not commit). -/
def stepTx (s : DB) (accId : String) (amt : Rat) (d : String) (tid : String) : DB :=
  match add_transaction s demoUser
      { accountId := some accId, amount := some (.num amt), description := none,
        category := none, date := some d, type := none, method := none }
      "2024-06-01" tid with
  | some (_, s') => s'
  | none => s

/-- The demo store after inserting transactions dated 2024-01-01,
2024-03-01, 2024-02-01, in that order. -/
def demoDB : DB :=
  stepTx (stepTx (stepTx demoDB0 "a1" 5 "2024-01-01" "t1") "a1" 6 "2024-03-01" "t2")
    "a1" 7 "2024-02-01" "t3"

/-! ### Claims -/

/-- A create-transaction body whose amount is the falsy number 0. -/
def c9FalsyBody : TxBody :=
  { accountId := some "a1", amount := some (.num 0), description := none,
    category := none, date := none, type := none, method := none }

/-- A create-transaction body whose amount is the truthy string "0". -/
def c9StrZeroBody : TxBody :=
  { accountId := some "a1", amount := some (.str "0"), description := none,
    category := none, date := some "2026-10-12", type := none, method := none }

/-- The zero-amount transaction row committed by the C9 counterexample
request. -/
def zeroTx : Transaction :=
  { id := "t0", user_id := "u1", account_id := "a1", amount := 0,
    description := "No description", category := "Other", date := "2026-10-12",
    type := "expense", method := "cash" }

/-- C9 counterexample: the clause that a zero-amount transaction can
never be created is false — the string "0" is truthy, so a body with
amount "0" passes the `not data.get('amount')` guard, and
`float("0") = 0.0` (app.py line 196) commits a transaction whose
amount is 0, answered 201. -/
theorem C9_counterexample :
    (Json.str "0").truthy = true
    ∧ add_transaction demoDB0 demoUser c9StrZeroBody "2026-10-12" "t0"
      = some (⟨201, .created "t0"⟩,
              { users := demoDB0.users, accounts := demoDB0.accounts,
                transactions := [zeroTx] })
    ∧ zeroTx.amount = 0 :=
  ⟨by decide, by decide, by decide⟩

/-- C9 amended: an `amount` field that is present but falsy (the number
0, false, the empty string or null) is rejected with 400 "Missing
transaction data" and the store is unchanged, even though the field is
present; however a zero-amount transaction CAN be created — the string
"0" is truthy, passes the guard, and `float("0")` commits a row whose
amount is 0. -/
theorem C9_falsy_amount_rejected_but_string_zero_commits
    (s s2 : DB) (u u2 : User) (data data2 : TxBody)
    (today today2 tid tid2 : String) (j : Json)
    (hamt : data.amount = some j) (hfalsy : j.truthy = false)
    (hacc2 : truthyS data2.accountId = true)
    (hamt2 : data2.amount = some (.str "0")) :
    add_transaction s u data today tid
      = some (⟨400, .err "Missing transaction data"⟩, s)
    ∧ ∃ t : Transaction,
        add_transaction s2 u2 data2 today2 tid2
          = some (⟨201, .created tid2⟩,
                  { users := s2.users, accounts := s2.accounts,
                    transactions := s2.transactions ++ [t] })
        ∧ t.amount = 0 := by
  constructor
  · simp [add_transaction, hamt, truthyJ, hfalsy]
  · refine ⟨{ id := tid2, user_id := u2.id, account_id := data2.accountId.getD "",
              amount := 0,
              description := data2.description.getD "No description",
              category := data2.category.getD "Other",
              date := data2.date.getD today2,
              type := data2.type.getD "expense",
              method := data2.method.getD "cash" }, ?_, rfl⟩
    have hpf : pyFloat (Json.str "0") = some 0 := by decide
    have htr : (Json.str "0").truthy = true := by decide
    simp [add_transaction, hacc2, hamt2, truthyJ, htr, hpf]

theorem C9_falsy_amount_rejected_but_string_zero_commits_witness :
    c9FalsyBody.amount = some (.num 0)
    ∧ (Json.num 0).truthy = false
    ∧ truthyS c9StrZeroBody.accountId = true
    ∧ c9StrZeroBody.amount = some (.str "0")
    ∧ (add_transaction demoDB0 demoUser c9FalsyBody "2026-10-12" "tA"
        = some (⟨400, .err "Missing transaction data"⟩, demoDB0)
       ∧ ∃ t : Transaction,
           add_transaction demoDB0 demoUser c9StrZeroBody "2026-10-12" "tB"
             = some (⟨201, .created "tB"⟩,
                     { users := demoDB0.users, accounts := demoDB0.accounts,
                       transactions := demoDB0.transactions ++ [t] })
           ∧ t.amount = 0) :=
  ⟨rfl, by decide, by decide, rfl,
   C9_falsy_amount_rejected_but_string_zero_commits demoDB0 demoDB0 demoUser demoUser
     c9FalsyBody c9StrZeroBody "2026-10-12" "2026-10-12" "tA" "tB" (.num 0)
     rfl (by decide) (by decide) rfl⟩

/-- The transaction row created by the C4 counterexample request. -/
def c4tx : Transaction :=
  { id := "t9", user_id := "u1", account_id := "a1", amount := 5,
    description := "No description", category := "Other", date := "2026-10-12",
    type := "expense", method := "cash" }

/-- C4 counterexample: a valid create-transaction request answers 201, but
the body is only the new row's id (the one-key object of line 205), not
the full eight-field representation `Transaction.to_dict` of the
created transaction. -/
theorem C4_counterexample :
    add_transaction demoDB0 demoUser
        { accountId := some "a1", amount := some (.num 5), description := none,
          category := none, date := none, type := none, method := none }
        "2026-10-12" "t9"
      = some (⟨201, .created "t9"⟩,
              { users := demoDB0.users, accounts := demoDB0.accounts,
                transactions := [c4tx] })
    ∧ Body.created "t9" ≠ Body.txOne c4tx.to_dict := by
  constructor
  · rfl
  · intro h
    exact Body.noConfusion h

/-- C4 amended: for every authenticated user and every body with a truthy
`accountId` and a nonzero numeric `amount`, create-transaction answers
201 with a body holding only the id of the created transaction, and
appends exactly that transaction to the store. -/
theorem C4_created_response (s : DB) (u : User) (data : TxBody)
    (today tid : String) (q : Rat)
    (hacc : truthyS data.accountId = true)
    (hamt : data.amount = some (.num q)) (hq : q ≠ 0) :
    ∃ t : Transaction,
      add_transaction s u data today tid
          = some (⟨201, .created tid⟩,
                  { users := s.users, accounts := s.accounts,
                    transactions := s.transactions ++ [t] })
        ∧ t.id = tid ∧ t.user_id = u.id
        ∧ t.account_id = data.accountId.getD "" ∧ t.amount = q := by
  refine ⟨{ id := tid, user_id := u.id, account_id := data.accountId.getD "",
            amount := q,
            description := data.description.getD "No description",
            category := data.category.getD "Other",
            date := data.date.getD today,
            type := data.type.getD "expense",
            method := data.method.getD "cash" }, ?_, rfl, rfl, rfl, rfl⟩
  simp [add_transaction, hacc, hamt, truthyJ, Json.truthy, hq, pyFloat]

theorem C4_created_response_witness :
    truthyS (some "a1") = true
    ∧ (some (Json.num 5) : Option Json) = some (.num 5)
    ∧ (5 : Rat) ≠ 0
    ∧ ∃ t : Transaction,
        add_transaction demoDB0 demoUser
            { accountId := some "a1", amount := some (.num 5), description := none,
              category := none, date := none, type := none, method := none }
            "2026-10-12" "t9"
            = some (⟨201, .created "t9"⟩,
                    { users := demoDB0.users, accounts := demoDB0.accounts,
                      transactions := demoDB0.transactions ++ [t] })
          ∧ t.id = "t9" ∧ t.user_id = demoUser.id
          ∧ t.account_id = (some "a1").getD "" ∧ t.amount = 5 :=
  ⟨by decide, rfl, by decide,
   C4_created_response demoDB0 demoUser _ "2026-10-12" "t9" 5 (by decide) rfl (by decide)⟩

/-- C5: with credentials present, a login whose email matches a stored
user but whose password fails verification and a login whose email
matches no user both answer 401 with the identical error body. -/
theorem C5_login_no_enumeration (s : DB) (u : User) (e1 p1 e2 p2 secret : String)
    (now : Int)
    (he1 : e1 ≠ "") (hp1 : p1 ≠ "") (he2 : e2 ≠ "") (hp2 : p2 ≠ "")
    (hfirst : (s.users.filter (fun v => v.email == e1)).head? = some u)
    (hwrong : check_password_hash u.password_hash p1 = false)
    (hnone : ∀ v ∈ s.users, v.email ≠ e2) :
    login s (some { email := some e1, password := some p1 }) secret now
        = ⟨401, .err "Invalid credentials"⟩
    ∧ login s (some { email := some e2, password := some p2 }) secret now
        = ⟨401, .err "Invalid credentials"⟩ := by
  constructor
  · simp [login, truthyS, he1, hp1, hfirst, hwrong]
  · have hfil : s.users.filter (fun v => v.email == e2) = [] := by
      refine List.filter_eq_nil_iff.mpr ?_
      intro v hv
      simpa using hnone v hv
    simp [login, truthyS, he2, hp2, hfil]

theorem C5_login_no_enumeration_witness :
    ("demo@x.com" : String) ≠ ""
    ∧ ("wrong" : String) ≠ ""
    ∧ ("ghost@x.com" : String) ≠ ""
    ∧ ("pw" : String) ≠ ""
    ∧ (demoDB0.users.filter (fun v => v.email == "demo@x.com")).head? = some demoUser
    ∧ check_password_hash demoUser.password_hash "wrong" = false
    ∧ (∀ v ∈ demoDB0.users, v.email ≠ "ghost@x.com")
    ∧ login demoDB0 (some { email := some "demo@x.com", password := some "wrong" })
          "sec" 0 = ⟨401, .err "Invalid credentials"⟩
    ∧ login demoDB0 (some { email := some "ghost@x.com", password := some "pw" })
          "sec" 0 = ⟨401, .err "Invalid credentials"⟩ := by
  refine ⟨by decide, by decide, by decide, by decide, by decide, by decide, by decide, ?_, ?_⟩
  · exact (C5_login_no_enumeration demoDB0 demoUser "demo@x.com" "wrong" "ghost@x.com" "pw"
      "sec" 0 (by decide) (by decide) (by decide) (by decide) (by decide) (by decide)
      (by decide)).1
  · exact (C5_login_no_enumeration demoDB0 demoUser "demo@x.com" "wrong" "ghost@x.com" "pw"
      "sec" 0 (by decide) (by decide) (by decide) (by decide) (by decide) (by decide)
      (by decide)).2

/-- C6: when some stored user already has the requested email, register
answers 409 and returns the store unchanged (users, accounts and
transactions all untouched); consequently registering the same email
twice from a state without it always yields 409 on the second attempt. -/
theorem C6_duplicate_email_conflict (sa sb : DB) (name1 name2 : Option String)
    (e p uid1 sync1 aid1 uid2 sync2 aid2 secret : String) (now1 now2 : Int)
    (he : e ≠ "") (hp : p ≠ "")
    (hdup : ∃ u ∈ sa.users, u.email = e)
    (hfresh : ∀ u ∈ sb.users, u.email ≠ e) :
    register sa (some { name := name1, email := some e, password := some p })
        uid1 sync1 aid1 secret now1
      = (⟨409, .err "User with this email already exists"⟩, sa)
    ∧ (register
        (register sb (some { name := name1, email := some e, password := some p })
          uid1 sync1 aid1 secret now1).2
        (some { name := name2, email := some e, password := some p })
        uid2 sync2 aid2 secret now2).1
      = ⟨409, .err "User with this email already exists"⟩ := by
  constructor
  · simp [register, truthyS, he, hp, hdup]
  · have hnot : ¬ ∃ x ∈ sb.users, x.email = e := by
      rintro ⟨x, hx, hxe⟩
      exact hfresh x hx hxe
    simp [register, truthyS, he, hp, hnot]

theorem C6_duplicate_email_conflict_witness :
    ("demo@x.com" : String) ≠ ""
    ∧ ("pw" : String) ≠ ""
    ∧ (∃ u ∈ demoDB0.users, u.email = "demo@x.com")
    ∧ (∀ u ∈ (DB.mk [] [] []).users, u.email ≠ "demo@x.com")
    ∧ register demoDB0
          (some { name := none, email := some "demo@x.com", password := some "pw" })
          "u9" "CCCCCC" "a9" "sec" 0
        = (⟨409, .err "User with this email already exists"⟩, demoDB0)
    ∧ (register
          (register (DB.mk [] [] [])
            (some { name := none, email := some "demo@x.com", password := some "pw" })
            "u9" "CCCCCC" "a9" "sec" 0).2
          (some { name := none, email := some "demo@x.com", password := some "pw" })
          "u10" "DDDDDD" "a10" "sec" 1).1
        = ⟨409, .err "User with this email already exists"⟩ := by
  refine ⟨by decide, by decide, ⟨demoUser, by decide, by decide⟩, by decide, ?_, ?_⟩
  · exact (C6_duplicate_email_conflict demoDB0 (DB.mk [] [] []) none none
      "demo@x.com" "pw" "u9" "CCCCCC" "a9" "u10" "DDDDDD" "a10" "sec" 0 1
      (by decide) (by decide) ⟨demoUser, by decide, by decide⟩ (by decide)).1
  · exact (C6_duplicate_email_conflict demoDB0 (DB.mk [] [] []) none none
      "demo@x.com" "pw" "u9" "CCCCCC" "a9" "u10" "DDDDDD" "a10" "sec" 0 1
      (by decide) (by decide) ⟨demoUser, by decide, by decide⟩ (by decide)).2

/-- C7: a successful registration (fresh email, fresh user id) answers
201 and produces, in the same commit, the new user together with
exactly one account owned by it, named "Cash Wallet"; no state with the
user but without that account is ever returned. -/
theorem C7_register_creates_cash_wallet (s : DB) (name : Option String)
    (e p uid sync_hex aid secret : String) (now : Int)
    (he : e ≠ "") (hp : p ≠ "")
    (hnew : ∀ u ∈ s.users, u.email ≠ e)
    (hfreshAcc : ∀ a ∈ s.accounts, a.user_id ≠ uid) :
    (register s (some { name := name, email := some e, password := some p })
        uid sync_hex aid secret now).1.status = 201
    ∧ (∃ nu ∈ (register s (some { name := name, email := some e, password := some p })
          uid sync_hex aid secret now).2.users, nu.id = uid ∧ nu.email = e)
    ∧ (register s (some { name := name, email := some e, password := some p })
        uid sync_hex aid secret now).2.accounts.filter (fun a => a.user_id == uid)
      = [{ id := aid, user_id := uid, name := "Cash Wallet", icon := "💰" }] := by
  have hfil : s.users.filter (fun u => u.email == e) = [] := by
    refine List.filter_eq_nil_iff.mpr ?_
    intro u hu
    simpa using hnew u hu
  have hacc : s.accounts.filter (fun a => a.user_id == uid) = [] := by
    refine List.filter_eq_nil_iff.mpr ?_
    intro a ha
    simpa using hfreshAcc a ha
  refine ⟨?_, ?_, ?_⟩
  · simp [register, truthyS, he, hp, hfil]
  · refine ⟨{ id := uid, name := name.getD "New User", email := e,
              password_hash := generate_password_hash p,
              sync_token := "SF-" ++ sync_hex }, ?_, rfl, rfl⟩
    simp [register, truthyS, he, hp, hfil]
  · simp [register, truthyS, he, hp, hfil, List.filter_append, hacc]

theorem C7_register_creates_cash_wallet_witness :
    ("new@x.com" : String) ≠ ""
    ∧ ("pw" : String) ≠ ""
    ∧ (∀ u ∈ demoDB0.users, u.email ≠ "new@x.com")
    ∧ (∀ a ∈ demoDB0.accounts, a.user_id ≠ "u9")
    ∧ (register demoDB0
          (some { name := some "N", email := some "new@x.com", password := some "pw" })
          "u9" "CCCCCC" "a9" "sec" 0).1.status = 201
    ∧ (∃ nu ∈ (register demoDB0
          (some { name := some "N", email := some "new@x.com", password := some "pw" })
          "u9" "CCCCCC" "a9" "sec" 0).2.users, nu.id = "u9" ∧ nu.email = "new@x.com")
    ∧ (register demoDB0
          (some { name := some "N", email := some "new@x.com", password := some "pw" })
          "u9" "CCCCCC" "a9" "sec" 0).2.accounts.filter (fun a => a.user_id == "u9")
        = [{ id := "a9", user_id := "u9", name := "Cash Wallet", icon := "💰" }] := by
  refine ⟨by decide, by decide, by decide, by decide, ?_, ?_, ?_⟩
  · exact (C7_register_creates_cash_wallet demoDB0 (some "N") "new@x.com" "pw"
      "u9" "CCCCCC" "a9" "sec" 0 (by decide) (by decide) (by decide) (by decide)).1
  · exact (C7_register_creates_cash_wallet demoDB0 (some "N") "new@x.com" "pw"
      "u9" "CCCCCC" "a9" "sec" 0 (by decide) (by decide) (by decide) (by decide)).2.1
  · exact (C7_register_creates_cash_wallet demoDB0 (some "N") "new@x.com" "pw"
      "u9" "CCCCCC" "a9" "sec" 0 (by decide) (by decide) (by decide) (by decide)).2.2

/-- C10: the auth gate never inspects the scheme word: whenever chunk 1
of the Authorization header is a token signed with the configured
secret, unexpired, and resolving to a stored user, the gate succeeds
whatever chunk 0 is (so "Token <jwt>" is accepted like "Bearer <jwt>");
and a nonempty header with a single chunk (no space) is rejected 401
through the caught IndexError. -/
theorem C10_scheme_word_ignored (s : DB) (secret : String) (now : Int)
    (w0 w : TokenWire) (rest : List TokenWire) (t : JwtToken) (u : User)
    (hkey : t.key = secret) (hexp : ¬ t.exp < now)
    (huser : (s.users.filter (fun v => v.id == t.sub)).head? = some u)
    (hw : w ≠ .text "") :
    token_required s secret now (some (w0 :: .tok t :: rest)) = .success u
    ∧ token_required s secret now (some [w])
      = .failure ⟨401, .err "Token is invalid!"⟩ := by
  constructor
  · have hne : (w0 :: TokenWire.tok t :: rest) ≠ [TokenWire.text ""] := by
      intro h
      cases h
    simp [token_required, hne, jwt_decode, hkey, hexp, huser]
  · simp [token_required, hw]

theorem C10_scheme_word_ignored_witness :
    (JwtToken.mk "u1" 0 604800 "sec").key = "sec"
    ∧ ¬ (JwtToken.mk "u1" 0 604800 "sec").exp < (100 : Int)
    ∧ (demoDB0.users.filter (fun v => v.id == (JwtToken.mk "u1" 0 604800 "sec").sub)).head?
        = some demoUser
    ∧ (TokenWire.text "Basicxyz") ≠ TokenWire.text ""
    ∧ token_required demoDB0 "sec" 100
        (some [.text "Token", .tok (JwtToken.mk "u1" 0 604800 "sec")]) = .success demoUser
    ∧ token_required demoDB0 "sec" 100 (some [.text "Basicxyz"])
        = .failure ⟨401, .err "Token is invalid!"⟩ := by
  refine ⟨by decide, by decide, by decide, by decide, ?_, ?_⟩
  · exact (C10_scheme_word_ignored demoDB0 "sec" 100 (.text "Token") (.text "Basicxyz")
      [] (JwtToken.mk "u1" 0 604800 "sec") demoUser (by decide) (by decide) (by decide)
      (by decide)).1
  · exact (C10_scheme_word_ignored demoDB0 "sec" 100 (.text "Token") (.text "Basicxyz")
      [] (JwtToken.mk "u1" 0 604800 "sec") demoUser (by decide) (by decide) (by decide)
      (by decide)).2

/-- The default signing secret configured in app.py (line 32). -/
def defaultSecret : String := "smart-finance-super-secret-key-123"

/-- C3 counterexample: a token expired (issued at time 0, checked 11 days
later, past its 7-day expiry) and a token signed with a different key
produce the IDENTICAL auth-gate response 401 "Token is invalid!" — the
gate's bare `except` collapses the two causes, so authentication does
not fail with an expiry-specific or signature-specific error, even
though the underlying decode distinguishes them. -/
theorem C3_counterexample :
    token_required demoDB0 defaultSecret 950400
        (some [.text "Bearer", .tok (generate_token "u1" defaultSecret 0)])
      = .failure ⟨401, .err "Token is invalid!"⟩
    ∧ token_required demoDB0 defaultSecret 950400
        (some [.text "Bearer", .tok (JwtToken.mk "u1" 900000 2000000 "other-key")])
      = .failure ⟨401, .err "Token is invalid!"⟩
    ∧ jwt_decode (.tok (generate_token "u1" defaultSecret 0)) defaultSecret 950400
      = .error .expiredSignature
    ∧ jwt_decode (.tok (JwtToken.mk "u1" 900000 2000000 "other-key")) defaultSecret 950400
      = .error .invalidSignature :=
  ⟨by decide, by decide, rfl, rfl⟩

/-- C3 amended: the underlying `jwt.decode` does distinguish the causes —
a token generated more than 7 days before the check fails with the
expiry-specific error and a token signed with a different key fails
with the signature-specific error — but the auth gate catches both and
returns the same generic 401 "Token is invalid!" response in either
case; the gate's observable error is not cause-specific. -/
theorem C3_gate_collapses_jwt_errors (s : DB) (secret uid sub key : String)
    (t0 iat exp now : Int)
    (hlate : t0 + 7 * 86400 < now) (hkey : key ≠ secret) :
    jwt_decode (.tok (generate_token uid secret t0)) secret now
      = .error .expiredSignature
    ∧ jwt_decode (.tok (JwtToken.mk sub iat exp key)) secret now
      = .error .invalidSignature
    ∧ token_required s secret now
        (some [.text "Bearer", .tok (generate_token uid secret t0)])
      = .failure ⟨401, .err "Token is invalid!"⟩
    ∧ token_required s secret now
        (some [.text "Bearer", .tok (JwtToken.mk sub iat exp key)])
      = .failure ⟨401, .err "Token is invalid!"⟩ := by
  have hl : t0 + 604800 < now := by omega
  have hdec1 : jwt_decode (.tok (generate_token uid secret t0)) secret now
      = .error .expiredSignature := by
    simp [jwt_decode, generate_token, hl]
  have hdec2 : jwt_decode (.tok (JwtToken.mk sub iat exp key)) secret now
      = .error .invalidSignature := by
    simp [jwt_decode, hkey]
  refine ⟨hdec1, hdec2, ?_, ?_⟩
  · simp [token_required, hdec1]
  · simp [token_required, hdec2]

theorem C3_gate_collapses_jwt_errors_witness :
    ((0 : Int) + 7 * 86400 < 950400)
    ∧ ("other-key" : String) ≠ defaultSecret
    ∧ jwt_decode (.tok (generate_token "u1" defaultSecret 0)) defaultSecret 950400
        = .error .expiredSignature
    ∧ jwt_decode (.tok (JwtToken.mk "u1" 900000 2000000 "other-key")) defaultSecret 950400
        = .error .invalidSignature
    ∧ token_required demoDB0 defaultSecret 950400
        (some [.text "Bearer", .tok (generate_token "u1" defaultSecret 0)])
        = .failure ⟨401, .err "Token is invalid!"⟩
    ∧ token_required demoDB0 defaultSecret 950400
        (some [.text "Bearer", .tok (JwtToken.mk "u1" 900000 2000000 "other-key")])
        = .failure ⟨401, .err "Token is invalid!"⟩ := by
  refine ⟨by decide, by decide, ?_, ?_, ?_, ?_⟩
  · exact (C3_gate_collapses_jwt_errors demoDB0 defaultSecret "u1" "u1" "other-key"
      0 900000 2000000 950400 (by decide) (by decide)).1
  · exact (C3_gate_collapses_jwt_errors demoDB0 defaultSecret "u1" "u1" "other-key"
      0 900000 2000000 950400 (by decide) (by decide)).2.1
  · exact (C3_gate_collapses_jwt_errors demoDB0 defaultSecret "u1" "u1" "other-key"
      0 900000 2000000 950400 (by decide) (by decide)).2.2.1
  · exact (C3_gate_collapses_jwt_errors demoDB0 defaultSecret "u1" "u1" "other-key"
      0 900000 2000000 950400 (by decide) (by decide)).2.2.2

/-- `==` on a type with decidable equality is symmetric. -/
theorem beq_swap {α : Type} [DecidableEq α] (x y : α) : (x == y) = (y == x) := by
  rcases Decidable.eq_or_ne x y with h | h
  · subst h; rfl
  · simp [h, Ne.symm h]

/-- C1: account deletion (modelled from the spec, see `delete_account`):
when some stored account has the requested id and belongs to the
authenticated user, the response is 200 and the new state — produced as
one unit — drops exactly that account and every transaction of that
user referencing it, leaving users untouched and transactions of other
accounts (or other users) in place; otherwise the response is 404 and
the state is unchanged. -/
theorem C1_delete_account_cascade (s : DB) (u : User) (idArg : Option String) :
    (delete_account s u idArg).1
      = (if s.accounts.any (fun a => idArg == some a.id && a.user_id == u.id)
         then ⟨200, .ok_true⟩ else ⟨404, .err "Account not found"⟩)
    ∧ (delete_account s u idArg).2.users = s.users
    ∧ (delete_account s u idArg).2.accounts
      = (if s.accounts.any (fun a => idArg == some a.id && a.user_id == u.id)
         then s.accounts.filter (fun a => !(idArg == some a.id && a.user_id == u.id))
         else s.accounts)
    ∧ (delete_account s u idArg).2.transactions
      = (if s.accounts.any (fun a => idArg == some a.id && a.user_id == u.id)
         then s.transactions.filter
                (fun t => !(idArg == some t.account_id && t.user_id == u.id))
         else s.transactions) := by
  cases hh : (s.accounts.filter (fun a => idArg == some a.id && a.user_id == u.id)).head? with
  | none =>
    have hfil : s.accounts.filter (fun a => idArg == some a.id && a.user_id == u.id) = [] :=
      List.head?_eq_none_iff.mp hh
    have hany : s.accounts.any (fun a => idArg == some a.id && a.user_id == u.id) = false := by
      rw [Bool.eq_false_iff]
      intro hco
      rcases List.any_eq_true.mp hco with ⟨a, ha, hpa⟩
      have : a ∈ s.accounts.filter (fun a => idArg == some a.id && a.user_id == u.id) :=
        List.mem_filter.mpr ⟨ha, hpa⟩
      rw [hfil] at this
      cases this
    refine ⟨?_, ?_, ?_, ?_⟩ <;> simp [delete_account, hh, hany]
  | some acc =>
    have hmem : acc ∈ s.accounts.filter (fun a => idArg == some a.id && a.user_id == u.id) :=
      List.mem_of_mem_head? (by simp [hh])
    rcases List.mem_filter.mp hmem with ⟨haccs, hp⟩
    rcases (by simpa using hp : (idArg == some acc.id) = true ∧ (acc.user_id == u.id) = true)
      with ⟨hid, huid⟩
    have hidArg : idArg = some acc.id := eq_of_beq hid
    have hany : s.accounts.any (fun a => idArg == some a.id && a.user_id == u.id) = true :=
      List.any_eq_true.mpr ⟨acc, haccs, hp⟩
    have hfa : ∀ a ∈ s.accounts,
        (!(a.id == acc.id && a.user_id == u.id))
          = (!(idArg == some a.id && a.user_id == u.id)) := by
      intro a _
      subst hidArg
      simp [beq_swap acc.id a.id]
    have hft : ∀ t ∈ s.transactions,
        (!(t.account_id == acc.id && t.user_id == u.id))
          = (!(idArg == some t.account_id && t.user_id == u.id)) := by
      intro t _
      subst hidArg
      simp [beq_swap acc.id t.account_id]
    refine ⟨?_, ?_, ?_, ?_⟩
    · simp [delete_account, hh, hany]
    · simp [delete_account, hh]
    · simp only [delete_account, hh, hany, if_true]
      exact List.filter_congr hfa
    · simp only [delete_account, hh, hany, if_true]
      exact List.filter_congr hft

/-- C2: a request authenticated as user `u` can neither see nor delete
rows of a different user `b`: every dict returned by list-accounts and
list-transactions comes from a row owned by `u` and no row owned by `b`
is rendered, and delete-transaction only ever removes a row whose user
reference is `u`.  Primary-key uniqueness of the id columns is
assumed. -/
theorem C2_user_isolation (s : DB) (u b : User) (hub : b.id ≠ u.id)
    (hacc : (s.accounts.map Account.id).Nodup)
    (htx : (s.transactions.map Transaction.id).Nodup) :
    (∀ d ∈ (get_accounts s u).accountDicts,
        ∃ a ∈ s.accounts, a.user_id = u.id ∧ a.to_dict = d)
    ∧ (∀ a ∈ s.accounts, a.user_id = b.id → a.to_dict ∉ (get_accounts s u).accountDicts)
    ∧ (∀ d ∈ (get_transactions s u).txDicts,
        ∃ t ∈ s.transactions, t.user_id = u.id ∧ t.to_dict = d)
    ∧ (∀ t ∈ s.transactions, t.user_id = b.id → t.to_dict ∉ (get_transactions s u).txDicts)
    ∧ (∀ idArg : Option String, ∀ t ∈ s.transactions,
        t ∉ (delete_transaction s u idArg).2.transactions → t.user_id = u.id) := by
  have hAccDicts : (get_accounts s u).accountDicts
      = (s.accounts.filter (fun a => a.user_id == u.id)).map Account.to_dict := rfl
  have hTxRows : ∀ t : Transaction,
      t ∈ user_transactions_sorted s u
        ↔ t ∈ s.transactions.filter (fun t => t.user_id == u.id) := by
    intro t
    exact (sortBy_perm dateDesc _).mem_iff
  have hTxDicts : (get_transactions s u).txDicts
      = (user_transactions_sorted s u).map Transaction.to_dict := rfl
  refine ⟨?_, ?_, ?_, ?_, ?_⟩
  · intro d hd
    rw [hAccDicts] at hd
    rcases List.mem_map.mp hd with ⟨a, hafil, rfl⟩
    rcases List.mem_filter.mp hafil with ⟨ha, hpa⟩
    exact ⟨a, ha, eq_of_beq hpa, rfl⟩
  · intro a ha hab hcon
    rw [hAccDicts] at hcon
    rcases List.mem_map.mp hcon with ⟨a', ha'fil, hd⟩
    rcases List.mem_filter.mp ha'fil with ⟨ha', hpa'⟩
    have hids : a'.id = a.id := congrArg AccountDict.id hd
    have : a' = a := List.inj_on_of_nodup_map hacc ha' ha hids
    subst this
    exact hub (hab ▸ eq_of_beq hpa')
  · intro d hd
    rw [hTxDicts] at hd
    rcases List.mem_map.mp hd with ⟨t, htsort, rfl⟩
    rcases List.mem_filter.mp ((hTxRows t).mp htsort) with ⟨ht, hpt⟩
    exact ⟨t, ht, eq_of_beq hpt, rfl⟩
  · intro t ht htb hcon
    rw [hTxDicts] at hcon
    rcases List.mem_map.mp hcon with ⟨t', ht'sort, hd⟩
    rcases List.mem_filter.mp ((hTxRows t').mp ht'sort) with ⟨ht', hpt'⟩
    have hids : t'.id = t.id := congrArg TxDict.id hd
    have : t' = t := List.inj_on_of_nodup_map htx ht' ht hids
    subst this
    exact hub (htb ▸ eq_of_beq hpt')
  · intro idArg t ht hgone
    cases hh : (s.transactions.filter
        (fun t => idArg == some t.id && t.user_id == u.id)).head? with
    | none =>
      exact absurd ht (by simpa [delete_transaction, hh] using hgone)
    | some tx =>
      have hmem : tx ∈ s.transactions.filter
          (fun t => idArg == some t.id && t.user_id == u.id) :=
        List.mem_of_mem_head? (by simp [hh])
      rcases List.mem_filter.mp hmem with ⟨_, hptx⟩
      rcases (by simpa using hptx : (idArg == some tx.id) = true ∧ (tx.user_id == u.id) = true)
        with ⟨_, htxu⟩
      have hgone' : t ∉ s.transactions.erase tx := by
        simpa [delete_transaction, hh] using hgone
      by_cases hteq : t = tx
      · subst hteq
        exact eq_of_beq htxu
      · exact absurd ((List.mem_erase_of_ne hteq).mpr ht) hgone'

/-- C8: list-transactions returns exactly the authenticated user's
transactions (as a permutation of the user-filtered rows' dicts),
pairwise sorted by date string in descending lexicographic order; on
the demo store, inserting dates 2024-01-01, 2024-03-01, 2024-02-01
yields the listing order 2024-03-01, 2024-02-01, 2024-01-01. -/
theorem C8_transactions_sorted_desc (s : DB) (u : User) :
    List.Pairwise (fun d1 d2 : TxDict => dateLe d2.date d1.date = true)
        (get_transactions s u).txDicts
    ∧ List.Perm (get_transactions s u).txDicts
        ((s.transactions.filter (fun t => t.user_id == u.id)).map Transaction.to_dict)
    ∧ (get_transactions demoDB demoUser).txDicts.map TxDict.date
        = ["2024-03-01", "2024-02-01", "2024-01-01"] := by
  have hTxDicts : (get_transactions s u).txDicts
      = (user_transactions_sorted s u).map Transaction.to_dict := rfl
  refine ⟨?_, ?_, by decide⟩
  · rw [hTxDicts]
    have hrows : List.Pairwise (fun t t' : Transaction => dateDesc t t' = true)
        (user_transactions_sorted s u) :=
      sortBy_pairwise dateDesc (fun a b c h1 h2 => dateDesc_trans h1 h2) dateDesc_total _
    exact List.Pairwise.map Transaction.to_dict (fun t t' h => h) hrows
  · rw [hTxDicts]
    exact (sortBy_perm dateDesc _).map Transaction.to_dict

/-- A two-user store exercising the isolation theorem. -/
def isoDB : DB :=
  { users := [demoUser, otherUser],
    accounts := [{ id := "a1", user_id := "u1", name := "Cash Wallet", icon := "💰" },
                 { id := "a2", user_id := "u2", name := "Cash Wallet", icon := "💰" }],
    transactions :=
      [{ id := "t1", user_id := "u1", account_id := "a1", amount := 5,
         description := "d", category := "c", date := "2024-01-01",
         type := "expense", method := "cash" },
       { id := "t2", user_id := "u2", account_id := "a2", amount := 6,
         description := "d", category := "c", date := "2024-01-02",
         type := "expense", method := "cash" }] }

theorem C2_user_isolation_witness :
    otherUser.id ≠ demoUser.id
    ∧ (isoDB.accounts.map Account.id).Nodup
    ∧ (isoDB.transactions.map Transaction.id).Nodup
    ∧ (∀ a ∈ isoDB.accounts, a.user_id = otherUser.id →
        a.to_dict ∉ (get_accounts isoDB demoUser).accountDicts) :=
  ⟨by decide, by decide, by decide,
   (C2_user_isolation isoDB demoUser otherUser (by decide) (by decide) (by decide)).2.1⟩

end FinSight
